import Mathlib

/-!
Verification of the resilience and order-processing core of
`src/otel-python-app/app.py` (an orders service built around a circuit
breaker, a retry executor, a dependency client and an order-creation
workflow).  Each Python construct is shallowly embedded as an executable
Lean definition; wall-clock instants returned by `time.time()` are
modelled as rationals, money amounts as rationals, and the in-memory
`orders` dict as an insertion-ordered association list (matching Python
dict semantics).
-/

namespace OtelApp

/-- Wall-clock instants (`time.time()` values) and durations. -/
abbrev Time := ℚ

/-! ## CircuitBreaker (app.py lines 249-277) -/

/-- The `self.state` field of `CircuitBreaker`: one of the Python strings
`'closed'`, `'open'`, `'half-open'`. -/
inductive BreakerState where
  | closed
  | open_
  | halfOpen
deriving DecidableEq, Repr

/-- `class CircuitBreaker` (app.py lines 249-255).  `last_failure_time`
is `None` at construction, hence the `Option`. -/
structure CircuitBreaker where
  failure_threshold : Nat
  reset_timeout : Time
  failures : Nat
  state : BreakerState
  last_failure_time : Option Time
deriving DecidableEq, Repr

/-- `CircuitBreaker.__init__` with its default arguments
(`failure_threshold=5`, `reset_timeout=30`). -/
def CircuitBreaker.init (failure_threshold : Nat := 5) (reset_timeout : Time := 30) :
    CircuitBreaker :=
  { failure_threshold := failure_threshold
    reset_timeout := reset_timeout
    failures := 0
    state := .closed
    last_failure_time := none }

/-- `CircuitBreaker.can_execute` (app.py lines 257-265).  It both returns a
boolean and may mutate `self.state` (open → half-open), so the embedding
returns the pair.  In the `open` state Python evaluates
`time.time() - self.last_failure_time`; if `last_failure_time` were still
`None` this would raise a `TypeError`, modelled by the `none` result. -/
def CircuitBreaker.can_execute (cb : CircuitBreaker) (now : Time) :
    Option (Bool × CircuitBreaker) :=
  match cb.state with
  | .closed => some (true, cb)
  | .open_ =>
    match cb.last_failure_time with
    | some t =>
      if now - t > cb.reset_timeout then
        some (true, { cb with state := .halfOpen })
      else
        some (false, cb)
    | none => none
  | .halfOpen => some (true, cb)

/-- `CircuitBreaker.record_success` (app.py lines 267-269). -/
def CircuitBreaker.record_success (cb : CircuitBreaker) : CircuitBreaker :=
  { cb with failures := 0, state := .closed }

/-- `CircuitBreaker.record_failure` (app.py lines 271-275); `now` is the
`time.time()` stamp taken inside the method. -/
def CircuitBreaker.record_failure (cb : CircuitBreaker) (now : Time) : CircuitBreaker :=
  let cb' := { cb with failures := cb.failures + 1, last_failure_time := some now }
  if cb'.failures ≥ cb'.failure_threshold then { cb' with state := .open_ } else cb'

/-- One externally invokable breaker operation, for reachability statements. -/
inductive BreakerOp where
  | can_exec (now : Time)
  | rec_success
  | rec_failure (now : Time)

/-- Apply one operation to the breaker state.  `can_execute` may mutate the
state (open → half-open); if it raises the (unreachable) `TypeError`
the breaker state is left as it was. -/
def breakerStep (cb : CircuitBreaker) : BreakerOp → CircuitBreaker
  | .can_exec now =>
    match cb.can_execute now with
    | some (_, cb') => cb'
    | none => cb
  | .rec_success => cb.record_success
  | .rec_failure now => cb.record_failure now

/-- Run a sequence of breaker operations from a given state. -/
def runBreaker (cb : CircuitBreaker) (ops : List BreakerOp) : CircuitBreaker :=
  ops.foldl breakerStep cb

/-! ## call_with_retry (app.py lines 376-389)

The wrapped zero-argument callable is modelled as a function from the
attempt index (0-based) to `Except E A`: `f k` is what `func()` does on its
`k`-th invocation.  The embedding also records the observable
instrumentation: how many times `func` was invoked, the sleeps
(`backoff_factor ** attempt`) performed, and the `retry_counter` emissions
(tagged `str(attempt + 1)`, emitted only when `attempt < max_retries - 1`). -/

/-- Outcome of `call_with_retry`: a returned value, a re-raised last
exception, or the `TypeError` from `raise None` when `max_retries = 0`. -/
inductive RetryResult (E A : Type) where
  | ok (a : A)
  | err (e : E)
  | none_raised
deriving DecidableEq, Repr

/-- Full observable behaviour of one `call_with_retry` run. -/
structure RetryOut (E A : Type) where
  result : RetryResult E A
  calls : Nat
  waits : List ℚ
  retry_tags : List Nat
deriving DecidableEq, Repr

/-- The `for attempt in range(max_retries)` loop of `call_with_retry`,
entered at a given `attempt` with the `last_exception` seen so far.
`fuel` counts the loop iterations remaining (`max_retries - attempt`), so
the body runs exactly while `attempt < max_retries` and the fall-through
at `fuel = 0` is the trailing `raise last_exception`. -/
def retryLoop {E A : Type} (f : Nat → Except E A) (backoff_factor : ℚ)
    (max_retries : Nat) : (fuel attempt : Nat) → Option E → RetryOut E A
  | 0, _, last_exception =>
    match last_exception with
    | some e => { result := .err e, calls := 0, waits := [], retry_tags := [] }
    | none => { result := .none_raised, calls := 0, waits := [], retry_tags := [] }
  | fuel + 1, attempt, _ =>
    match f attempt with
    | .ok a => { result := .ok a, calls := 1, waits := [], retry_tags := [] }
    | .error e =>
      let rest := retryLoop f backoff_factor max_retries fuel (attempt + 1) (some e)
      if attempt < max_retries - 1 then
        { result := rest.result
          calls := rest.calls + 1
          waits := backoff_factor ^ attempt :: rest.waits
          retry_tags := (attempt + 1) :: rest.retry_tags }
      else
        { rest with calls := rest.calls + 1 }

/-- `call_with_retry(func, max_retries=3, backoff_factor=1.5)`. -/
def call_with_retry {E A : Type} (f : Nat → Except E A)
    (max_retries : Nat := 3) (backoff_factor : ℚ := 3/2) : RetryOut E A :=
  retryLoop f backoff_factor max_retries max_retries 0 none

/-! ## call_products_service (app.py lines 337-374) -/

/-- The `method` argument at the call sites in `create_order`. -/
inductive Method where
  | GET
  | POST
deriving DecidableEq, Repr

/-- Rendering of the method tag used on the metric attributes. -/
def Method.str : Method → String
  | .GET => "GET"
  | .POST => "POST"

/-- A metric emission performed by `call_products_service`, in program
order.  `error_type` carries `type(e).__name__`. -/
inductive DepEvent where
  | dependency_request (dependency method : String)
  | dependency_latency (dependency method : String)
  | dependency_error (dependency error_type : String)
deriving DecidableEq, Repr

/-- Outcome of one `call_products_service` invocation, as seen by its
caller: the returned response, the generic `Exception` raised when the
breaker refuses the call, a propagated transport exception, or the
(unreachable) `TypeError` from `can_execute` on a `None`
`last_failure_time`. -/
inductive DepResult (R : Type) where
  | ok (r : R)
  | breaker_open
  | transport_raised (error_type : String)
  | type_error
deriving DecidableEq, Repr

/-- `call_products_service(method, path, ...)`.  The underlying
`requests.get/post` attempt is modelled by `attempt`: `.ok r` is a
completed HTTP exchange returning response `r` (whatever its status code),
`.error s` a raised transport/timeout exception whose class name is `s`.
Returns the caller-visible outcome, the breaker after the call, and the
metric emissions in program order. -/
def call_products_service {R : Type} (cb : CircuitBreaker) (now : Time)
    (method : Method) (attempt : Except String R) :
    DepResult R × CircuitBreaker × List DepEvent :=
  match cb.can_execute now with
  | none => (.type_error, cb, [])
  | some (false, cb') => (.breaker_open, cb', [])
  | some (true, cb') =>
    let req := DepEvent.dependency_request "products-service" method.str
    match attempt with
    | .ok r =>
      (.ok r, cb'.record_success,
        [req, .dependency_latency "products-service" method.str])
    | .error e =>
      (.transport_raised e, cb'.record_failure now,
        [req, .dependency_error "products-service" e])

/-! ## In-memory data model (app.py lines 234-246)

`orders` and `user_order_history` are Python dicts, modelled as
insertion-ordered association lists; `known_users` is a Python set,
modelled as a duplicate-free list. -/

/-- `d[k] = v` on a Python dict: replace in place if the key exists,
otherwise append at the end (Python dicts preserve insertion order). -/
def dictInsert {α : Type} (k : String) (v : α) :
    List (String × α) → List (String × α)
  | [] => [(k, v)]
  | (k', v') :: rest =>
    if k' = k then (k, v) :: rest else (k', v') :: dictInsert k v rest

/-- `d.get(k)` on a Python dict. -/
def dictGet {α : Type} (k : String) : List (String × α) → Option α
  | [] => none
  | (k', v') :: rest => if k' = k then some v' else dictGet k rest

/-- `s.add(x)` on a Python set. -/
def setAdd (u : String) (l : List String) : List String :=
  if u ∈ l then l else l ++ [u]

/-- One `{'status': ..., 'timestamp': ...}` entry of `status_history`. -/
structure StatusEntry where
  status : String
  timestamp : String
deriving DecidableEq, Repr

/-- An entry of the `orders` dict (the `order_record` built in
`create_order`, app.py lines 741-757).  Timestamps are the opaque
isoformat strings Python produces. -/
structure Order where
  order_id : String
  user_id : String
  product_id : String
  product_name : String
  quantity : Int
  price_per_unit : ℚ
  total_amount : ℚ
  status : String
  status_history : List StatusEntry
  created_at : String
  updated_at : String
  estimated_delivery : String
deriving DecidableEq, Repr

/-- The process-wide mutable order state: `orders`, `order_id_counter`,
`user_order_history` and `known_users` (app.py lines 234-246). -/
structure Store where
  orders : List (String × Order)
  order_id_counter : Nat
  user_order_history : List (String × List String)
  known_users : List String
deriving DecidableEq, Repr

/-! ## Order-id formatting: `f'ORD-{order_id_counter:05d}'` -/

/-- One decimal digit rendered as Python renders it. -/
def digitChar : Nat → Char
  | 0 => '0'
  | 1 => '1'
  | 2 => '2'
  | 3 => '3'
  | 4 => '4'
  | 5 => '5'
  | 6 => '6'
  | 7 => '7'
  | 8 => '8'
  | 9 => '9'
  | _ => '?'

/-- The big-endian decimal digit characters of `n` (`"0"` for zero),
Python's `str(n)` for a non-negative int. -/
def decChars (n : Nat) : List Char :=
  if n = 0 then ['0'] else ((Nat.digits 10 n).reverse).map digitChar

/-- Zero-pad on the left to width 5: Python's `f'{n:05d}'`. -/
def pyFormat05 (n : Nat) : List Char :=
  List.replicate (5 - (decChars n).length) '0' ++ decChars n

/-- The order id allocated from a counter value: `f'ORD-{n:05d}'`
(app.py line 738). -/
def orderIdFor (n : Nat) : String :=
  ⟨'O' :: 'R' :: 'D' :: '-' :: pyFormat05 n⟩

/-- Inverse of `digitChar` on decimal digits, used to read the numeric
part back out of an order id. -/
def charDigit (c : Char) : Nat :=
  if c = '0' then 0 else if c = '1' then 1 else if c = '2' then 2
  else if c = '3' then 3 else if c = '4' then 4 else if c = '5' then 5
  else if c = '6' then 6 else if c = '7' then 7 else if c = '8' then 8
  else if c = '9' then 9 else 0

/-- Numeric value of a big-endian decimal character string. -/
def valOfChars (cs : List Char) : Nat :=
  Nat.ofDigits 10 ((cs.map charDigit).reverse)

/-- The sequential counter value an order id was derived from
(the `NNNNN` part of `ORD-NNNNN`). -/
def orderIdNum (id : String) : Nat :=
  valOfChars (id.data.drop 4)

/-! ## create_order (app.py lines 461-836) -/

/-- The `{'product': {'name': ..., 'price': ...}}` payload of a product
fetch. -/
structure ProductData where
  name : String
  price : ℚ
deriving DecidableEq, Repr

/-- The outcome, as observed inside `create_order`, of one
`call_with_retry(lambda: call_products_service(...))` block:

* `resp status body` — a response object was returned; `body` is what the
  subsequent `.json()` access yields (`none` when JSON decoding or the key
  lookup raises, which escapes to the outer `except Exception`);
* `req_error` — a `requests.RequestException` propagated out of the retry
  (transport/timeout failure after retries, or `raise_for_status` inside
  the dependency client — none here, statuses are checked in
  `create_order` itself);
* `other_error` — a non-`RequestException` exception propagated (for
  example the plain `Exception` raised when the circuit breaker is open),
  which the inner `except requests.RequestException` does NOT catch. -/
inductive DepCallResult (β : Type) where
  | resp (status : Nat) (body : β)
  | req_error
  | other_error
deriving DecidableEq, Repr

/-- A metric emission performed by `create_order` / `cancel_order`,
in program order. -/
inductive Event where
  | returning_customer
  | new_customer
  | failed_transaction_revenue (amount : ℚ) (reason : String) (product_id : String)
  | order_created (product_id user_id : String)
  | order_value (amount : ℚ)
  | order_revenue (amount : ℚ)
  | user_order_count (n : Nat)
  | order_status_change (from_status to_status : String)
  | order_processing_time (elapsed : ℚ) (status : String) (reason : Option String)
  | sla_violation (reason : String)
  | cancellation (product_id previous_status : String)
  | cancellation_value (amount : ℚ)
deriving DecidableEq, Repr

/-- Caller-visible result of `POST /api/orders`. -/
inductive CreateOrderResponse where
  | created (order : Order)
  | product_not_found
  | products_comm_error
  | insufficient_stock (requested available : Int)
  | inventory_check_failed
  | payment_failed
  | purchase_failed
  | purchase_completion_failed
  | internal_error
deriving DecidableEq, Repr

/-- The HTTP status code attached to each `create_order` response. -/
def CreateOrderResponse.statusCode : CreateOrderResponse → Nat
  | .created _ => 201
  | .product_not_found => 404
  | .products_comm_error => 503
  | .insufficient_stock _ _ => 400
  | .inventory_check_failed => 503
  | .payment_failed => 402
  | .purchase_failed => 400
  | .purchase_completion_failed => 503
  | .internal_error => 500

/-- Everything one `create_order` run reads from the outside world:
the parsed request fields, the outcomes of the three dependency-call
blocks, the two random draws, the measured elapsed time at the exit
point, and the wall-clock/timedelta strings. -/
structure CreateOrderEnv where
  product_id : String
  quantity : Int
  user_id : String
  fetch : DepCallResult (Option ProductData)
  inventory : DepCallResult (Option Int)
  payment_declined : Bool
  purchase : DepCallResult (Option Unit)
  elapsed : ℚ
  ts : String
  estimated_delivery : String
deriving DecidableEq, Repr

/-- The processing-time/SLA accounting performed at every exit of
`create_order`: one `order_processing_time_histogram.record` with the
given tags, plus one `sla_violation_counter.add` with `sla_reason` iff
the elapsed time exceeds 2.0 seconds. -/
def recordExit (elapsed : ℚ) (status : String) (reason : Option String)
    (sla_reason : String) : List Event :=
  Event.order_processing_time elapsed status reason ::
    (if elapsed > 2 then [Event.sla_violation sla_reason] else [])

/-- `requests.Response.raise_for_status()` raises exactly for
4xx and 5xx status codes. -/
def raisesForStatus (status : Nat) : Bool :=
  400 ≤ status ∧ status < 600

/-- The `create_order` handler (app.py lines 461-836), given the ambient
store and the environment of one request.  Returns the response, the
store afterwards, and the business-metric emissions in program order. -/
def create_order (s : Store) (env : CreateOrderEnv) :
    CreateOrderResponse × Store × List Event :=
  -- customer classification (lines 487-493), before any downstream call
  let classEv : Event :=
    if env.user_id ∈ s.known_users then .returning_customer else .new_customer
  let s := { s with known_users := setAdd env.user_id s.known_users }
  let fail (r : CreateOrderResponse) (reason : String) : CreateOrderResponse × Store × List Event :=
    (r, s, [classEv] ++ recordExit env.elapsed "failed" (some reason) reason)
  let failRev (r : CreateOrderResponse) (reason : String) (amount : ℚ) :
      CreateOrderResponse × Store × List Event :=
    (r, s, [classEv, .failed_transaction_revenue amount reason env.product_id]
      ++ recordExit env.elapsed "failed" (some reason) reason)
  let internal : CreateOrderResponse × Store × List Event :=
    (.internal_error, s,
      [classEv] ++ recordExit env.elapsed "failed" (some "internal_error") "internal_error")
  -- fetch product details (lines 502-562)
  match env.fetch with
  | .other_error => internal
  | .req_error => fail .products_comm_error "service_communication_error"
  | .resp fetchStatus fetchBody =>
    if fetchStatus = 404 then fail .product_not_found "product_not_found"
    else if raisesForStatus fetchStatus then
      -- raise_for_status → requests.HTTPError, caught as RequestException
      fail .products_comm_error "service_communication_error"
    else match fetchBody with
    | none => internal  -- response.json()['product'] raised
    | some product_data =>
      -- validate inventory (lines 564-630)
      match env.inventory with
      | .other_error => internal
      | .req_error => fail .inventory_check_failed "inventory_check_failed"
      | .resp invStatus invBody =>
        if raisesForStatus invStatus then fail .inventory_check_failed "inventory_check_failed"
        else match invBody with
        | none => internal  -- inventory_response.json()['stock'] raised
        | some stock =>
          if stock < env.quantity then
            failRev (.insufficient_stock env.quantity stock) "insufficient_stock"
              (product_data.price * env.quantity)
          else
            -- simulate payment (lines 632-671)
            let total_amount := product_data.price * env.quantity
            if env.payment_declined then
              failRev .payment_failed "payment_declined" total_amount
            else
              -- complete purchase (lines 673-735)
              match env.purchase with
              | .other_error => internal
              | .req_error => fail .purchase_completion_failed "purchase_completion_failed"
              | .resp purchaseStatus purchaseBody =>
                if purchaseStatus ≠ 200 then
                  failRev .purchase_failed "purchase_failed" total_amount
                else match purchaseBody with
                | none => internal  -- purchase_response.json() raised
                | some _ =>
                  -- commit (lines 737-820)
                  let order_id := orderIdFor s.order_id_counter
                  let order_record : Order :=
                    { order_id := order_id
                      user_id := env.user_id
                      product_id := env.product_id
                      product_name := product_data.name
                      quantity := env.quantity
                      price_per_unit := product_data.price
                      total_amount := product_data.price * env.quantity
                      status := "confirmed"
                      status_history :=
                        [⟨"created", env.ts⟩, ⟨"confirmed", env.ts⟩]
                      created_at := env.ts
                      updated_at := env.ts
                      estimated_delivery := env.estimated_delivery }
                  let user_list := (dictGet env.user_id s.user_order_history).getD []
                  let s' : Store :=
                    { s with
                      order_id_counter := s.order_id_counter + 1
                      orders := dictInsert order_id order_record s.orders
                      user_order_history :=
                        dictInsert env.user_id (user_list ++ [order_id]) s.user_order_history }
                  (.created order_record, s',
                    [classEv,
                     .order_created env.product_id env.user_id,
                     .order_value order_record.total_amount,
                     .order_revenue order_record.total_amount,
                     .user_order_count (user_list.length + 1),
                     .order_status_change "none" "confirmed"]
                    ++ recordExit env.elapsed "success" none "slow_processing")

/-! ## cancel_order (app.py lines 936-1013) -/

/-- Caller-visible result of `POST /api/orders/<order_id>/cancel`. -/
inductive CancelResponse where
  | success (order_id : String) (refund_amount : ℚ)
  | not_found
  | already_cancelled
  | cannot_cancel_shipped
  | cancellation_processing_failed
deriving DecidableEq, Repr

/-- The HTTP status code attached to each `cancel_order` response. -/
def CancelResponse.statusCode : CancelResponse → Nat
  | .success _ _ => 200
  | .not_found => 404
  | .already_cancelled => 400
  | .cannot_cancel_shipped => 400
  | .cancellation_processing_failed => 500

/-- The `cancel_order` handler (app.py lines 936-1013).  `rand_fail` is
the 2%-probability draw `random.random() < 0.02`, `ts` the isoformat
timestamp used for `updated_at` and the appended history entry. -/
def cancel_order (s : Store) (order_id : String) (rand_fail : Bool) (ts : String) :
    CancelResponse × Store × List Event :=
  match dictGet order_id s.orders with
  | none => (.not_found, s, [])
  | some order =>
    if order.status = "cancelled" then (.already_cancelled, s, [])
    else if order.status = "shipped" then (.cannot_cancel_shipped, s, [])
    else if rand_fail then (.cancellation_processing_failed, s, [])
    else
      let previous_status := order.status
      let order' : Order :=
        { order with
          status := "cancelled"
          updated_at := ts
          status_history := order.status_history ++ [⟨"cancelled", ts⟩] }
      ( .success order_id order'.total_amount,
        { s with orders := dictInsert order_id order' s.orders },
        [ .cancellation order.product_id previous_status,
          .cancellation_value order'.total_amount,
          .order_status_change previous_status "cancelled" ] )

/-! ## Sequences of create_order requests -/

/-- Run a list of create-order requests in order, collecting the
responses and threading the store. -/
def run_creates (s : Store) : List CreateOrderEnv → List CreateOrderResponse × Store
  | [] => ([], s)
  | env :: rest =>
    let out := create_order s env
    let tail := run_creates out.2.1 rest
    (out.1 :: tail.1, tail.2)

/-- The order ids allocated by the successful responses, in issuance
order. -/
def successIds (rs : List CreateOrderResponse) : List String :=
  rs.filterMap fun r =>
    match r with
    | .created o => some o.order_id
    | _ => none

/-! ## Lemmas about the circuit breaker -/

/-- `record_failure` in closed form: bump the counter, stamp the time,
open the breaker when the threshold is reached. -/
theorem record_failure_eq (cb : CircuitBreaker) (now : Time) :
    cb.record_failure now =
      { cb with
        failures := cb.failures + 1
        last_failure_time := some now
        state := if cb.failure_threshold ≤ cb.failures + 1 then .open_ else cb.state } := by
  unfold CircuitBreaker.record_failure
  dsimp only
  split <;> simp_all [ge_iff_le]

/-- `can_execute` mutates nothing when it returns `false`. -/
theorem can_execute_false (cb cb' : CircuitBreaker) (now : Time)
    (h : cb.can_execute now = some (false, cb')) : cb' = cb := by
  unfold CircuitBreaker.can_execute at h
  cases hs : cb.state <;> simp [hs] at h
  cases hl : cb.last_failure_time <;> simp [hl] at h
  split at h <;> simp_all

/-- One breaker operation preserves `state = open ⇒ threshold ≤ failures`
(and never changes the configured threshold). -/
theorem breakerStep_inv (cb : CircuitBreaker) (op : BreakerOp)
    (h : cb.state = .open_ → cb.failure_threshold ≤ cb.failures) :
    ((breakerStep cb op).state = .open_ →
      (breakerStep cb op).failure_threshold ≤ (breakerStep cb op).failures) := by
  cases op with
  | can_exec now =>
    unfold breakerStep CircuitBreaker.can_execute
    cases hs : cb.state with
    | closed => simp [hs]
    | open_ =>
      cases hl : cb.last_failure_time with
      | none => simpa [hs, hl] using h
      | some t =>
        by_cases ht : now - t > cb.reset_timeout
        · simp [hs, hl, ht]
        · simpa [hs, hl, ht] using h
    | halfOpen => simp [hs]
  | rec_success =>
    simp [breakerStep, CircuitBreaker.record_success]
  | rec_failure now =>
    simp only [breakerStep, record_failure_eq]
    intro hopen
    by_cases hth : cb.failure_threshold ≤ cb.failures + 1
    · exact hth
    · simp only [if_neg hth] at hopen
      exact Nat.le_succ_of_le (h hopen)

/-- The invariant holds for every state reachable from a state
satisfying it. -/
theorem runBreaker_inv (ops : List BreakerOp) (cb : CircuitBreaker)
    (h : cb.state = .open_ → cb.failure_threshold ≤ cb.failures) :
    ((runBreaker cb ops).state = .open_ →
      (runBreaker cb ops).failure_threshold ≤ (runBreaker cb ops).failures) := by
  induction ops generalizing cb with
  | nil => exact h
  | cons op rest ih => exact ih (breakerStep cb op) (breakerStep_inv cb op h)

/-- No breaker operation changes the configured threshold. -/
theorem breakerStep_threshold (cb : CircuitBreaker) (op : BreakerOp) :
    (breakerStep cb op).failure_threshold = cb.failure_threshold := by
  cases op with
  | can_exec now =>
    simp only [breakerStep, CircuitBreaker.can_execute]
    cases hs : cb.state with
    | closed => rfl
    | open_ =>
      cases hl : cb.last_failure_time with
      | none => rfl
      | some t => by_cases ht : now - t > cb.reset_timeout <;> simp [ht]
    | halfOpen => rfl
  | rec_success => rfl
  | rec_failure now =>
    simp only [breakerStep, record_failure_eq]

/-- The threshold is constant along any run. -/
theorem runBreaker_threshold (ops : List BreakerOp) (cb : CircuitBreaker) :
    (runBreaker cb ops).failure_threshold = cb.failure_threshold := by
  induction ops generalizing cb with
  | nil => rfl
  | cons op rest ih =>
    calc (runBreaker (breakerStep cb op) rest).failure_threshold
        = (breakerStep cb op).failure_threshold := ih _
      _ = cb.failure_threshold := breakerStep_threshold cb op

/-- C1: starting from a closed breaker with the default configuration,
five consecutive `record_failure` calls (no intervening success) open the
breaker and stamp the last failure time; while `now - last_failure_time`
is still within the 30-second reset timeout `can_execute` returns `false`
and changes nothing, once strictly more than 30 seconds have elapsed it
returns `true` and moves the state to half-open; and a single
`record_success`, from any state whatsoever, zeroes the failure counter
and closes the breaker. -/
theorem circuit_breaker_fast_fail_and_recovery
    (cb cb5 : CircuitBreaker) (t1 t2 t3 t4 t5 now : Time)
    (_hstate : cb.state = .closed)
    (hth : cb.failure_threshold = 5) (hrt : cb.reset_timeout = 30)
    (hcb5 : cb5 = ((((cb.record_failure t1).record_failure t2).record_failure
        t3).record_failure t4).record_failure t5) :
    cb5.state = .open_ ∧
    cb5.last_failure_time = some t5 ∧
    (now - t5 ≤ 30 → cb5.can_execute now = some (false, cb5)) ∧
    (now - t5 > 30 → cb5.can_execute now = some (true, { cb5 with state := .halfOpen })) ∧
    (∀ b : CircuitBreaker, b.record_success.failures = 0 ∧ b.record_success.state = .closed) := by
  have hstate5 : cb5.state = .open_ := by
    subst hcb5
    simp only [record_failure_eq, hth]
    split
    · rfl
    · omega
  have hlft5 : cb5.last_failure_time = some t5 := by
    subst hcb5; simp only [record_failure_eq]
  have hrt5 : cb5.reset_timeout = 30 := by
    subst hcb5; simp only [record_failure_eq]; exact hrt
  refine ⟨hstate5, hlft5, ?_, ?_, ?_⟩
  · intro hle
    unfold CircuitBreaker.can_execute
    simp only [hstate5, hlft5, hrt5]
    rw [if_neg (not_lt.mpr hle)]
  · intro hgt
    unfold CircuitBreaker.can_execute
    simp only [hstate5, hlft5, hrt5]
    rw [if_pos hgt]
  · intro b
    exact ⟨rfl, rfl⟩

/-- Witness for C1 at the default breaker, failure times 1..5 and
`now = 40` (more than 30 seconds past the last failure). -/
theorem circuit_breaker_fast_fail_and_recovery_witness :
    CircuitBreaker.init.state = BreakerState.closed ∧
    CircuitBreaker.init.failure_threshold = 5 ∧
    CircuitBreaker.init.reset_timeout = 30 ∧
    (((((CircuitBreaker.init.record_failure 1).record_failure 2).record_failure
        3).record_failure 4).record_failure 5).state = .open_ ∧
    (((((CircuitBreaker.init.record_failure 1).record_failure 2).record_failure
        3).record_failure 4).record_failure 5).last_failure_time = some 5 ∧
    ((40 : Time) - 5 ≤ 30 →
      (((((CircuitBreaker.init.record_failure 1).record_failure 2).record_failure
          3).record_failure 4).record_failure 5).can_execute 40 =
        some (false, ((((CircuitBreaker.init.record_failure 1).record_failure
          2).record_failure 3).record_failure 4).record_failure 5)) ∧
    ((40 : Time) - 5 > 30 →
      (((((CircuitBreaker.init.record_failure 1).record_failure 2).record_failure
          3).record_failure 4).record_failure 5).can_execute 40 =
        some (true, { ((((CircuitBreaker.init.record_failure 1).record_failure
          2).record_failure 3).record_failure 4).record_failure 5 with
            state := BreakerState.halfOpen })) ∧
    (∀ b : CircuitBreaker, b.record_success.failures = 0 ∧ b.record_success.state = .closed) :=
  ⟨rfl, rfl, rfl,
    circuit_breaker_fast_fail_and_recovery CircuitBreaker.init _ 1 2 3 4 5 40 rfl rfl rfl rfl⟩

/-- C9: from the initial breaker (closed, 0 failures, defaults), every
state reachable under any sequence of `can_execute` / `record_success` /
`record_failure` calls satisfies `state = open → failures ≥ 5`; the
failure counter, a `Nat` in the embedding because the code only ever
increments it or resets it to 0, is trivially non-negative. -/
theorem circuit_breaker_state_invariant (ops : List BreakerOp)
    (h : (runBreaker CircuitBreaker.init ops).state = .open_) :
    5 ≤ (runBreaker CircuitBreaker.init ops).failures ∧
    0 ≤ (runBreaker CircuitBreaker.init ops).failures := by
  constructor
  · have hinv := runBreaker_inv ops CircuitBreaker.init
      (by intro hc; simp [CircuitBreaker.init] at hc)
    have hth := runBreaker_threshold ops CircuitBreaker.init
    rw [hth] at hinv
    exact hinv h
  · exact Nat.zero_le _

/-- Witness for C9: five failures at time 0 reach the open state, where
the counter indeed sits at the threshold. -/
theorem circuit_breaker_state_invariant_witness :
    (runBreaker CircuitBreaker.init (List.replicate 5 (BreakerOp.rec_failure 0))).state =
      .open_ ∧
    (5 ≤ (runBreaker CircuitBreaker.init
        (List.replicate 5 (BreakerOp.rec_failure 0))).failures ∧
     0 ≤ (runBreaker CircuitBreaker.init
        (List.replicate 5 (BreakerOp.rec_failure 0))).failures) :=
  ⟨by decide, circuit_breaker_state_invariant _ (by decide)⟩

/-- C2: with `max_retries = 3`, an operation failing on every invocation
is invoked exactly 3 times and the surfaced exception is that of the
third attempt, with sleeps `backoff^0` then `backoff^1` and retry-count
emissions (tagged attempt 1 and attempt 2) only on the two failed
attempts that still had attempts remaining; an operation failing once
then succeeding is invoked exactly 2 times, its result is returned with
no error, after a single `backoff^0` sleep and a single retry-count
emission. -/
theorem retry_executor_invocation_counts {E A : Type}
    (f g : Nat → Except E A) (e : Nat → E) (a : A) (e0 : E) (b : ℚ)
    (hf : ∀ k, f k = .error (e k))
    (hg0 : g 0 = .error e0) (hg1 : g 1 = .ok a) :
    call_with_retry f 3 b =
      { result := .err (e 2), calls := 3, waits := [b ^ 0, b ^ 1], retry_tags := [1, 2] } ∧
    call_with_retry g 3 b =
      { result := .ok a, calls := 2, waits := [b ^ 0], retry_tags := [1] } := by
  constructor
  · simp [call_with_retry, retryLoop, hf]
  · simp [call_with_retry, retryLoop, hg0, hg1]

/-- Witness for C2 with concrete always-failing and fail-then-succeed
operations over `E = A = Nat` and `backoff_factor = 3/2`. -/
theorem retry_executor_invocation_counts_witness :
    ((fun k => (Except.error k : Except Nat Nat)) 0 = .error 0 ∧
     (fun k => if k = 0 then (Except.error 7 : Except Nat Nat) else .ok 42) 0 = .error 7 ∧
     (fun k => if k = 0 then (Except.error 7 : Except Nat Nat) else .ok 42) 1 = .ok 42) ∧
    (call_with_retry (fun k => (Except.error k : Except Nat Nat)) 3 (3/2) =
      { result := .err 2, calls := 3, waits := [(3/2 : ℚ) ^ 0, (3/2 : ℚ) ^ 1],
        retry_tags := [1, 2] } ∧
     call_with_retry (fun k => if k = 0 then (Except.error 7 : Except Nat Nat) else .ok 42)
        3 (3/2) =
      { result := .ok 42, calls := 2, waits := [(3/2 : ℚ) ^ 0], retry_tags := [1] }) :=
  ⟨⟨rfl, rfl, rfl⟩,
    retry_executor_invocation_counts _ _ (fun k => k) 42 7 (3/2)
      (fun _ => rfl) rfl rfl⟩

/-! ## Dependency-client theorems -/

/-- A sequence of calls through `call_products_service` each of which
completes with an HTTP response (any status code). -/
def run_completed_calls (cb : CircuitBreaker) :
    List (Time × Method × Nat) → CircuitBreaker × List (DepResult Nat)
  | [] => (cb, [])
  | (now, m, status) :: rest =>
    let out := call_products_service cb now m (Except.ok status)
    let tail := run_completed_calls (out.2.1) rest
    (tail.1, out.1 :: tail.2)

/-- From a closed breaker with a clean counter, any sequence of completed
exchanges keeps the breaker closed with 0 failures and every call is
permitted and returns its response. -/
theorem run_completed_calls_closed (calls : List (Time × Method × Nat))
    (cb0 : CircuitBreaker) (hs : cb0.state = .closed) (hf : cb0.failures = 0) :
    (run_completed_calls cb0 calls).1.state = .closed ∧
    (run_completed_calls cb0 calls).1.failures = 0 ∧
    (run_completed_calls cb0 calls).2 =
      calls.map (fun c => DepResult.ok c.2.2) := by
  induction calls generalizing cb0 with
  | nil => exact ⟨hs, hf, rfl⟩
  | cons c rest ih =>
    obtain ⟨now, m, status⟩ := c
    have hcan : cb0.can_execute now = some (true, cb0) := by
      unfold CircuitBreaker.can_execute
      rw [hs]
    have hrec := ih cb0.record_success rfl rfl
    simp only [run_completed_calls, call_products_service, hcan, List.map_cons]
    exact ⟨hrec.1, hrec.2.1, by rw [hrec.2.2]⟩

/-- C4: if the breaker refuses the call, `call_products_service` raises
at once — no metric emission at all and the breaker left exactly as it
was (`can_execute` mutates nothing when it answers `false`); if the
breaker permits the call, the dependency-request counter (tagged with
dependency name and method) is emitted before the attempt, a raised
transport error triggers `record_failure` plus one dependency-error
counter increment (tagged with the exception class name) and propagates,
and a completed call records one latency observation and calls
`record_success`. -/
theorem dependency_client_gating
    (cbF cb1 cbT cbT' : CircuitBreaker) (nowF nowT : Time) (m : Method)
    (r : Nat) (e : String) (a : Except String Nat)
    (hF : cbF.can_execute nowF = some (false, cb1))
    (hT : cbT.can_execute nowT = some (true, cbT')) :
    (call_products_service cbF nowF m a = (.breaker_open, cbF, []) ∧ cb1 = cbF) ∧
    call_products_service (R := Nat) cbT nowT m (Except.error e) =
      (.transport_raised e, cbT'.record_failure nowT,
        [DepEvent.dependency_request "products-service" m.str,
         DepEvent.dependency_error "products-service" e]) ∧
    call_products_service cbT nowT m (Except.ok r) =
      (.ok r, cbT'.record_success,
        [DepEvent.dependency_request "products-service" m.str,
         DepEvent.dependency_latency "products-service" m.str]) := by
  have hcb1 : cb1 = cbF := can_execute_false cbF cb1 nowF hF
  subst hcb1
  refine ⟨⟨?_, rfl⟩, ?_, ?_⟩
  · simp [call_products_service, hF]
  · simp [call_products_service, hT]
  · simp [call_products_service, hT]

/-- A breaker that is open with its last failure 10 seconds ago: still
inside the 30-second reset window, so calls are refused. -/
def openBreakerExample : CircuitBreaker :=
  { failure_threshold := 5
    reset_timeout := 30
    failures := 5
    state := .open_
    last_failure_time := some 0 }

/-- The example breaker refuses a call 10 seconds after its last
failure. -/
theorem openBreakerExample_refuses :
    openBreakerExample.can_execute 10 = some (false, openBreakerExample) := by
  norm_num [openBreakerExample, CircuitBreaker.can_execute]

/-- Witness for C4: a recently tripped open breaker refuses the call; the
initial closed breaker permits it. -/
theorem dependency_client_gating_witness :
    openBreakerExample.can_execute 10 = some (false, openBreakerExample) ∧
    CircuitBreaker.init.can_execute 0 = some (true, CircuitBreaker.init) ∧
    ((call_products_service openBreakerExample 10 Method.GET (Except.ok 200) =
        (.breaker_open, openBreakerExample, []) ∧
      openBreakerExample = openBreakerExample) ∧
     call_products_service (R := Nat) CircuitBreaker.init 0 Method.GET
        (Except.error "ConnectionError") =
      (.transport_raised "ConnectionError", CircuitBreaker.init.record_failure 0,
        [DepEvent.dependency_request "products-service" Method.GET.str,
         DepEvent.dependency_error "products-service" "ConnectionError"]) ∧
     call_products_service CircuitBreaker.init 0 Method.GET (Except.ok 200) =
      (.ok 200, CircuitBreaker.init.record_success,
        [DepEvent.dependency_request "products-service" Method.GET.str,
         DepEvent.dependency_latency "products-service" Method.GET.str])) :=
  ⟨openBreakerExample_refuses, rfl,
    dependency_client_gating openBreakerExample openBreakerExample
      CircuitBreaker.init CircuitBreaker.init 10 0
      Method.GET 200 "ConnectionError" (Except.ok 200) openBreakerExample_refuses rfl⟩

/-- C10 (implicit): the breaker counts only raised transport exceptions
as failures — every permitted call that receives any HTTP response at
all, 404s and 5xx included, ends in `record_success` (0 failures, state
closed); consequently no sequence of completed exchanges, whatever their
status codes, can ever open the breaker from its initial state. -/
theorem completed_exchanges_never_open_breaker
    (cbT cbT' : CircuitBreaker) (now : Time) (m : Method) (status : Nat)
    (h : cbT.can_execute now = some (true, cbT')) :
    ((call_products_service cbT now m (Except.ok status)).2.1 = cbT'.record_success ∧
     (call_products_service cbT now m (Except.ok status)).2.1.failures = 0 ∧
     (call_products_service cbT now m (Except.ok status)).2.1.state = .closed) ∧
    ∀ calls : List (Time × Method × Nat),
      (run_completed_calls CircuitBreaker.init calls).1.state = .closed ∧
      (run_completed_calls CircuitBreaker.init calls).1.failures = 0 ∧
      (run_completed_calls CircuitBreaker.init calls).2 =
        calls.map (fun c => DepResult.ok c.2.2) := by
  constructor
  · constructor
    · simp [call_products_service, h]
    · simp [call_products_service, h, CircuitBreaker.record_success]
  · intro calls
    exact run_completed_calls_closed calls CircuitBreaker.init rfl rfl

/-- Witness for C10: a permitted call answered with a 404 response still
resets the breaker. -/
theorem completed_exchanges_never_open_breaker_witness :
    CircuitBreaker.init.can_execute 0 = some (true, CircuitBreaker.init) ∧
    (((call_products_service CircuitBreaker.init 0 Method.GET
          (Except.ok 404)).2.1 = CircuitBreaker.init.record_success ∧
      (call_products_service CircuitBreaker.init 0 Method.GET
          (Except.ok 404)).2.1.failures = 0 ∧
      (call_products_service CircuitBreaker.init 0 Method.GET
          (Except.ok 404)).2.1.state = .closed) ∧
     ∀ calls : List (Time × Method × Nat),
       (run_completed_calls CircuitBreaker.init calls).1.state = .closed ∧
       (run_completed_calls CircuitBreaker.init calls).1.failures = 0 ∧
       (run_completed_calls CircuitBreaker.init calls).2 =
         calls.map (fun c => DepResult.ok c.2.2)) :=
  ⟨rfl, completed_exchanges_never_open_breaker CircuitBreaker.init CircuitBreaker.init
    0 Method.GET 404 rfl⟩

/-! ## Orchestrator theorems -/

/-- C3: whenever `create_order` returns anything but the 201 created
response — product not found (404), communication error (503),
insufficient stock (400), payment declined (402), purchase failed
(400), purchase completion failed (503), inventory check failed (503)
or internal error (500) — the `orders` dict, the per-user
`user_order_history` index and the `order_id_counter` are left exactly
as they were; an order record is inserted (and the counter bumped, and
the user index appended) only on the single success path. -/
theorem create_order_commit_atomicity (s : Store) (env : CreateOrderEnv) :
    ((create_order s env).1.statusCode ≠ 201 →
      (create_order s env).2.1.orders = s.orders ∧
      (create_order s env).2.1.user_order_history = s.user_order_history ∧
      (create_order s env).2.1.order_id_counter = s.order_id_counter) ∧
    (∀ o : Order, (create_order s env).1 = .created o →
      (create_order s env).2.1.orders = dictInsert o.order_id o s.orders ∧
      (create_order s env).2.1.user_order_history =
        dictInsert env.user_id
          ((dictGet env.user_id s.user_order_history).getD [] ++ [o.order_id])
          s.user_order_history ∧
      (create_order s env).2.1.order_id_counter = s.order_id_counter + 1) := by
  unfold create_order
  dsimp only
  repeat' split
  all_goals simp_all [CreateOrderResponse.statusCode]

/-- The empty initial store (app.py lines 234-246: empty dicts, counter
at 1, no known users). -/
def store0 : Store :=
  { orders := []
    order_id_counter := 1
    user_order_history := []
    known_users := [] }

/-- A request whose product fetch comes back 404. -/
def envNotFound : CreateOrderEnv :=
  { product_id := "P1"
    quantity := 1
    user_id := "u1"
    fetch := .resp 404 none
    inventory := .req_error
    payment_declined := false
    purchase := .req_error
    elapsed := 1
    ts := "T0"
    estimated_delivery := "T7" }

/-- Witness for C3: the product-not-found failure leaves the store's
order state untouched. -/
theorem create_order_commit_atomicity_witness :
    (create_order store0 envNotFound).1.statusCode ≠ 201 ∧
    ((create_order store0 envNotFound).2.1.orders = store0.orders ∧
     (create_order store0 envNotFound).2.1.user_order_history =
       store0.user_order_history ∧
     (create_order store0 envNotFound).2.1.order_id_counter =
       store0.order_id_counter) :=
  ⟨by decide, (create_order_commit_atomicity store0 envNotFound).1 (by decide)⟩

/-- Recognizer for `failed_transaction_revenue_counter.add` emissions. -/
def Event.isFailedRevenue : Event → Bool
  | .failed_transaction_revenue .. => true
  | _ => false

/-- Recognizer for `order_processing_time_histogram.record` emissions. -/
def Event.isProcessingTime : Event → Bool
  | .order_processing_time .. => true
  | _ => false

/-- Recognizer for `sla_violation_counter.add` emissions. -/
def Event.isSla : Event → Bool
  | .sla_violation _ => true
  | _ => false

/-- The failed-transaction-revenue emissions of a run. -/
def revenueEvents (evs : List Event) : List Event :=
  evs.filter Event.isFailedRevenue

/-- The processing-time emissions of a run. -/
def processingEvents (evs : List Event) : List Event :=
  evs.filter Event.isProcessingTime

/-- The SLA-violation emissions of a run. -/
def slaEvents (evs : List Event) : List Event :=
  evs.filter Event.isSla

/-- C5: whenever the inventory check completes with `stock < quantity`
(after a successful product fetch), `create_order` answers the
400-equivalent insufficient-stock error carrying `requested = quantity`
and `available = stock`, emits exactly one failed-transaction-revenue
increment, of exactly `price × quantity` tagged
`reason = insufficient_stock`, and inserts no order. -/
theorem insufficient_stock_path (s : Store) (env : CreateOrderEnv)
    (pd : ProductData) (stock : Int) (st1 st2 : Nat)
    (hfetch : env.fetch = .resp st1 (some pd))
    (h404 : st1 ≠ 404) (hok1 : raisesForStatus st1 = false)
    (hinv : env.inventory = .resp st2 (some stock))
    (hok2 : raisesForStatus st2 = false)
    (hstock : stock < env.quantity) :
    (create_order s env).1 = .insufficient_stock env.quantity stock ∧
    (create_order s env).1.statusCode = 400 ∧
    revenueEvents (create_order s env).2.2 =
      [Event.failed_transaction_revenue (pd.price * env.quantity)
        "insufficient_stock" env.product_id] ∧
    (create_order s env).2.1.orders = s.orders := by
  unfold create_order
  dsimp only
  rw [hfetch, hinv]
  simp only [if_neg h404, hok1, hok2, Bool.false_eq_true, if_false, if_pos hstock]
  unfold revenueEvents recordExit
  by_cases hmem : env.user_id ∈ s.known_users <;>
    by_cases hsla : env.elapsed > 2 <;>
      simp [hmem, hsla, Event.isFailedRevenue, List.filter,
        CreateOrderResponse.statusCode]

/-- The product offered in the witness runs: $10 a unit. -/
def widget : ProductData :=
  { name := "Widget", price := 10 }

/-- A request asking for 5 units when only 2 are in stock. -/
def envInsufficient : CreateOrderEnv :=
  { product_id := "P1"
    quantity := 5
    user_id := "u1"
    fetch := .resp 200 (some widget)
    inventory := .resp 200 (some 2)
    payment_declined := false
    purchase := .req_error
    elapsed := 1
    ts := "T0"
    estimated_delivery := "T7" }

/-- Witness for C5: stock 2 against quantity 5 at price 10. -/
theorem insufficient_stock_path_witness :
    (envInsufficient.fetch = .resp 200 (some widget) ∧
     (200 : Nat) ≠ 404 ∧
     raisesForStatus 200 = false ∧
     envInsufficient.inventory = .resp 200 (some 2) ∧
     (2 : Int) < envInsufficient.quantity) ∧
    ((create_order store0 envInsufficient).1 =
       .insufficient_stock envInsufficient.quantity 2 ∧
     (create_order store0 envInsufficient).1.statusCode = 400 ∧
     revenueEvents (create_order store0 envInsufficient).2.2 =
       [Event.failed_transaction_revenue (widget.price * envInsufficient.quantity)
         "insufficient_stock" envInsufficient.product_id] ∧
     (create_order store0 envInsufficient).2.1.orders = store0.orders) :=
  ⟨⟨rfl, by decide, by decide, rfl, by decide⟩,
    insufficient_stock_path store0 envInsufficient widget 2 200 200
      rfl (by decide) (by decide) rfl (by decide) (by decide)⟩

/-- The `status` tag the processing-time histogram receives on each
exit of `create_order`. -/
def exitStatusTag : CreateOrderResponse → String
  | .created _ => "success"
  | _ => "failed"

/-- The `reason` tag the processing-time histogram receives on each
exit of `create_order` (the success exit carries no reason tag). -/
def exitReason : CreateOrderResponse → Option String
  | .created _ => none
  | .product_not_found => some "product_not_found"
  | .products_comm_error => some "service_communication_error"
  | .insufficient_stock _ _ => some "insufficient_stock"
  | .inventory_check_failed => some "inventory_check_failed"
  | .payment_failed => some "payment_declined"
  | .purchase_failed => some "purchase_failed"
  | .purchase_completion_failed => some "purchase_completion_failed"
  | .internal_error => some "internal_error"

/-- The `reason` tag the SLA-violation counter receives on each exit of
`create_order`: the failure reason on failure exits, but the literal
`slow_processing` on the success exit. -/
def slaReason : CreateOrderResponse → String
  | .created _ => "slow_processing"
  | r => (exitReason r).getD ""

/-- C8 (amended): every exit of `create_order` — success, each failure
gate, and the catch-all internal-error path (500) — records exactly one
processing-time observation, tagged with that exit's status and reason,
and increments the SLA-violation counter iff the elapsed time exceeds
2.0 seconds; the SLA tag equals the histogram's reason on every failure
exit, while the success exit tags the histogram `status=success` (no
reason) and the SLA counter `reason=slow_processing`. -/
theorem processing_time_sla_accounting (s : Store) (env : CreateOrderEnv) :
    processingEvents (create_order s env).2.2 =
      [Event.order_processing_time env.elapsed
        (exitStatusTag (create_order s env).1) (exitReason (create_order s env).1)] ∧
    slaEvents (create_order s env).2.2 =
      (if env.elapsed > 2 then
        [Event.sla_violation (slaReason (create_order s env).1)]
       else []) ∧
    ((create_order s env).1.statusCode ≠ 201 →
      exitStatusTag (create_order s env).1 = "failed" ∧
      some (slaReason (create_order s env).1) = exitReason (create_order s env).1) ∧
    (∀ o : Order, (create_order s env).1 = .created o →
      exitStatusTag (create_order s env).1 = "success" ∧
      exitReason (create_order s env).1 = none ∧
      slaReason (create_order s env).1 = "slow_processing") ∧
    ((create_order s env).1 = .internal_error →
      (create_order s env).1.statusCode = 500) := by
  rcases hco : create_order s env with ⟨resp, s', evs⟩
  unfold create_order recordExit at hco
  dsimp only at hco
  repeat' split at hco
  all_goals
    injection hco with h1 hrest
  all_goals
    injection hrest with h2 h3
  all_goals
    subst h1
  all_goals
    subst h3
  all_goals
    simp_all [processingEvents, slaEvents, Event.isProcessingTime, Event.isSla,
      exitStatusTag, exitReason, slaReason, CreateOrderResponse.statusCode,
      List.filter]

/-- A request that sails through every gate but takes 3 seconds. -/
def envSuccess : CreateOrderEnv :=
  { product_id := "P1"
    quantity := 1
    user_id := "u1"
    fetch := .resp 200 (some widget)
    inventory := .resp 200 (some 10)
    payment_declined := false
    purchase := .resp 200 (some ())
    elapsed := 3
    ts := "T0"
    estimated_delivery := "T7" }

/-- Counterexample to C8 as stated: on a successful run that breaches
the 2-second SLA, the single processing-time observation is tagged
`status=success` with no reason tag at all, while the SLA-violation
counter fires with `reason=slow_processing` — not "that same reason". -/
theorem processing_time_sla_same_reason_counterexample :
    processingEvents (create_order store0 envSuccess).2.2 =
      [Event.order_processing_time 3 "success" none] ∧
    slaEvents (create_order store0 envSuccess).2.2 =
      [Event.sla_violation "slow_processing"] ∧
    "slow_processing" ≠ "success" ∧
    (none : Option String) ≠ some "slow_processing" := by
  refine ⟨?_, ?_, by decide, by decide⟩ <;> decide

/-- Witness for C8 (amended): the 404 failure run satisfies the
failure-side tag agreement; the slow success run shows the recorded
histogram observation and SLA increment. -/
theorem processing_time_sla_accounting_witness :
    ((create_order store0 envNotFound).1.statusCode ≠ 201 ∧
     (exitStatusTag (create_order store0 envNotFound).1 = "failed" ∧
      some (slaReason (create_order store0 envNotFound).1) =
        exitReason (create_order store0 envNotFound).1)) ∧
    (processingEvents (create_order store0 envSuccess).2.2 =
      [Event.order_processing_time envSuccess.elapsed
        (exitStatusTag (create_order store0 envSuccess).1)
        (exitReason (create_order store0 envSuccess).1)] ∧
     slaEvents (create_order store0 envSuccess).2.2 =
      (if envSuccess.elapsed > 2 then
        [Event.sla_violation (slaReason (create_order store0 envSuccess).1)]
       else [])) :=
  ⟨⟨by decide, (processing_time_sla_accounting store0 envNotFound).2.2.1 (by decide)⟩,
   ⟨(processing_time_sla_accounting store0 envSuccess).1,
    (processing_time_sla_accounting store0 envSuccess).2.1⟩⟩

/-! ## Order-id arithmetic -/

/-- Leading zeros contribute nothing to the value read back. -/
theorem ofDigits_replicate_zero (k : Nat) :
    Nat.ofDigits 10 (List.replicate k 0) = 0 := by
  induction k with
  | zero => rfl
  | succ k ih => simp [List.replicate_succ, Nat.ofDigits_cons, ih]

/-- `charDigit` inverts `digitChar` on decimal digits. -/
theorem charDigit_digitChar (d : Nat) (hd : d < 10) :
    charDigit (digitChar d) = d := by
  interval_cases d <;> rfl

/-- Reading the zero-padded decimal rendering back recovers the
counter. -/
theorem valOfChars_pyFormat05 (n : Nat) : valOfChars (pyFormat05 n) = n := by
  unfold valOfChars pyFormat05
  rw [List.map_append, List.map_replicate]
  have hzero : charDigit '0' = 0 := rfl
  rw [hzero, List.reverse_append, List.reverse_replicate, Nat.ofDigits_append,
    ofDigits_replicate_zero, Nat.mul_zero, Nat.add_zero]
  by_cases hn : n = 0
  · subst hn; rfl
  · unfold decChars
    rw [if_neg hn, List.map_map]
    have hcong : ∀ a ∈ (Nat.digits 10 n).reverse, (charDigit ∘ digitChar) a = id a := by
      intro a ha
      have hlt : a < 10 := Nat.digits_lt_base (by norm_num) (List.mem_reverse.mp ha)
      simpa using charDigit_digitChar a hlt
    rw [List.map_congr_left hcong, List.map_id, List.reverse_reverse]
    exact Nat.ofDigits_digits 10 n

/-- The numeric part of an allocated order id is its counter. -/
theorem orderIdNum_orderIdFor (n : Nat) : orderIdNum (orderIdFor n) = n := by
  show valOfChars (('O' :: 'R' :: 'D' :: '-' :: pyFormat05 n).drop 4) = n
  simpa using valOfChars_pyFormat05 n

/-- Distinct counters yield distinct order-id strings. -/
theorem orderIdFor_injective : Function.Injective orderIdFor := by
  intro a b h
  have hnum := congrArg orderIdNum h
  rwa [orderIdNum_orderIdFor, orderIdNum_orderIdFor] at hnum

/-- Each `create_order` run either fails, leaving the counter alone, or
allocates exactly `orderIdFor` of the current counter and bumps it. -/
theorem create_order_created_or_not (s : Store) (env : CreateOrderEnv) :
    ((∀ o : Order, (create_order s env).1 ≠ .created o) ∧
      (create_order s env).2.1.order_id_counter = s.order_id_counter) ∨
    (∃ o : Order, (create_order s env).1 = .created o ∧
      o.order_id = orderIdFor s.order_id_counter ∧
      (create_order s env).2.1.order_id_counter = s.order_id_counter + 1) := by
  rcases hco : create_order s env with ⟨resp, s', evs⟩
  unfold create_order at hco
  dsimp only at hco
  repeat' split at hco
  all_goals injection hco with h1 hrest
  all_goals injection hrest with h2 h3
  all_goals subst h1
  all_goals subst h2
  all_goals first
    | exact Or.inl ⟨fun o => by simp, rfl⟩
    | exact Or.inr ⟨_, rfl, rfl, rfl⟩

/-- Along any request sequence, the successful ids are exactly the
consecutive counters starting at the initial one. -/
theorem run_creates_ids (envs : List CreateOrderEnv) (s : Store) :
    (run_creates s envs).2.order_id_counter =
      s.order_id_counter + (successIds (run_creates s envs).1).length ∧
    successIds (run_creates s envs).1 =
      (List.range (successIds (run_creates s envs).1).length).map
        (fun i => orderIdFor (s.order_id_counter + i)) := by
  induction envs generalizing s with
  | nil => simp [run_creates, successIds]
  | cons env rest ih =>
    have hrun : run_creates s (env :: rest) =
        ((create_order s env).1 :: (run_creates (create_order s env).2.1 rest).1,
          (run_creates (create_order s env).2.1 rest).2) := rfl
    rw [hrun]
    obtain ⟨ih1, ih2⟩ := ih (create_order s env).2.1
    rcases create_order_created_or_not s env with ⟨hne, hcount⟩ | ⟨o, hcr, hid, hcount⟩
    · have hnone : successIds
          ((create_order s env).1 :: (run_creates (create_order s env).2.1 rest).1) =
          successIds ((run_creates (create_order s env).2.1 rest).1) := by
        unfold successIds
        rw [List.filterMap_cons]
        cases hr : (create_order s env).1
        case created o => exact absurd hr (hne o)
        all_goals rfl
      rw [hnone, ← hcount]
      exact ⟨ih1, ih2⟩
    · have hsome : successIds
          ((create_order s env).1 :: (run_creates (create_order s env).2.1 rest).1) =
          o.order_id :: successIds ((run_creates (create_order s env).2.1 rest).1) := by
        unfold successIds
        rw [List.filterMap_cons, hcr]
      rw [hsome]
      rw [hcount] at ih1 ih2
      constructor
      · rw [ih1, List.length_cons]
        omega
      · rw [List.length_cons, List.range_succ_eq_map, List.map_cons, List.map_map]
        refine List.cons_eq_cons.mpr ⟨?_, ?_⟩
        · rw [hid, Nat.add_zero]
        · conv_lhs => rw [ih2]
          refine List.map_congr_left ?_
          intro i _hi
          simp only [Function.comp_apply]
          congr 1
          omega

/-- C6: over any sequence of requests, the order ids allocated by the
successful creations are exactly `orderIdFor` (the `ORD-NNNNN`
rendering) of consecutive counter values in issuance order, hence
pairwise distinct, with strictly increasing numeric parts. -/
theorem order_ids_unique_and_monotonic (s : Store) (envs : List CreateOrderEnv) :
    successIds (run_creates s envs).1 =
      (List.range (successIds (run_creates s envs).1).length).map
        (fun i => orderIdFor (s.order_id_counter + i)) ∧
    (successIds (run_creates s envs).1).Nodup ∧
    List.Pairwise (fun a b => orderIdNum a < orderIdNum b)
      (successIds (run_creates s envs).1) := by
  obtain ⟨_h1, h2⟩ := run_creates_ids envs s
  refine ⟨h2, ?_, ?_⟩
  · rw [h2]
    refine List.Nodup.map ?_ (List.nodup_range _)
    intro i j hij
    have := orderIdFor_injective hij
    omega
  · rw [h2, List.pairwise_map]
    refine (List.pairwise_lt_range _).imp ?_
    intro i j hij
    rw [orderIdNum_orderIdFor, orderIdNum_orderIdFor]
    omega

/-! ## cancel_order theorems -/

/-- Updating a key in a Python dict then reading it back yields the
update. -/
theorem dictGet_dictInsert {α : Type} (k : String) (v : α) (l : List (String × α)) :
    dictGet k (dictInsert k v l) = some v := by
  induction l with
  | nil => simp [dictInsert, dictGet]
  | cons p Rest ih =>
    obtain ⟨k', v'⟩ := p
    by_cases hk : k' = k
    · subst hk
      simp [dictInsert, dictGet]
    · simp [dictInsert, dictGet, hk, ih]

/-- The in-place mutation a successful `cancel_order` applies to the
order record (status flip, `updated_at`, one appended history entry). -/
def cancelUpdate (o : Order) (ts : String) : Order :=
  { o with
    status := "cancelled"
    updated_at := ts
    status_history := o.status_history ++ [⟨"cancelled", ts⟩] }

/-- C7: cancelling an unknown id is a 404 and a no-op; cancelling an
already-cancelled order is a 400 and leaves the store (including the
order's `status_history`) untouched; cancelling a shipped order is a 400
no-op; the random cancellation-failure branch is a 500 no-op; and a
successful cancel flips the status to `cancelled`, appends exactly one
history entry, refunds exactly `total_amount` — after which a second
cancel is rejected with the 400 already-cancelled error and changes
nothing. -/
theorem cancel_order_guards (s : Store) (order_id ts : String) (rand_fail : Bool) :
    (dictGet order_id s.orders = none →
      cancel_order s order_id rand_fail ts = (.not_found, s, []) ∧
      CancelResponse.not_found.statusCode = 404) ∧
    (∀ o : Order, dictGet order_id s.orders = some o →
      (o.status = "cancelled" →
        cancel_order s order_id rand_fail ts = (.already_cancelled, s, []) ∧
        CancelResponse.already_cancelled.statusCode = 400) ∧
      (o.status = "shipped" →
        cancel_order s order_id rand_fail ts = (.cannot_cancel_shipped, s, []) ∧
        CancelResponse.cannot_cancel_shipped.statusCode = 400) ∧
      (o.status ≠ "cancelled" → o.status ≠ "shipped" → rand_fail = true →
        cancel_order s order_id rand_fail ts =
          (.cancellation_processing_failed, s, []) ∧
        CancelResponse.cancellation_processing_failed.statusCode = 500) ∧
      (o.status ≠ "cancelled" → o.status ≠ "shipped" → rand_fail = false →
        (cancel_order s order_id rand_fail ts).1 =
          .success order_id o.total_amount ∧
        dictGet order_id (cancel_order s order_id rand_fail ts).2.1.orders =
          some (cancelUpdate o ts) ∧
        (∀ (rf' : Bool) (ts' : String),
          cancel_order (cancel_order s order_id rand_fail ts).2.1 order_id rf' ts' =
            (.already_cancelled, (cancel_order s order_id rand_fail ts).2.1, [])))) := by
  constructor
  · intro h
    exact ⟨by simp [cancel_order, h], rfl⟩
  · intro o ho
    refine ⟨?_, ?_, ?_, ?_⟩
    · intro hc
      exact ⟨by simp [cancel_order, ho, hc], rfl⟩
    · intro hs
      exact ⟨by simp [cancel_order, ho, hs], rfl⟩
    · intro hnc hns hrt
      subst hrt
      exact ⟨by simp [cancel_order, ho, hnc, hns], rfl⟩
    · intro hnc hns hrf
      subst hrf
      have hrun : cancel_order s order_id false ts =
          (.success order_id o.total_amount,
            { s with orders := dictInsert order_id (cancelUpdate o ts) s.orders },
            [Event.cancellation o.product_id o.status,
             Event.cancellation_value o.total_amount,
             Event.order_status_change o.status "cancelled"]) := by
        unfold cancel_order cancelUpdate
        rw [ho]
        simp [hnc, hns]
      refine ⟨by rw [hrun], ?_, ?_⟩
      · rw [hrun]
        exact dictGet_dictInsert _ _ _
      · intro rf' ts'
        rw [hrun]
        simp [cancel_order, dictGet_dictInsert, cancelUpdate]

/-- An order sitting confirmed in the store, ready to cancel. -/
def confirmedOrder : Order :=
  { order_id := "ORD-00001"
    user_id := "u1"
    product_id := "P1"
    product_name := "Widget"
    quantity := 2
    price_per_unit := 10
    total_amount := 20
    status := "confirmed"
    status_history := [⟨"created", "T0"⟩, ⟨"confirmed", "T0"⟩]
    created_at := "T0"
    updated_at := "T0"
    estimated_delivery := "T7" }

/-- A store holding exactly `confirmedOrder`. -/
def storeWithOrder : Store :=
  { orders := [("ORD-00001", confirmedOrder)]
    order_id_counter := 2
    user_order_history := [("u1", ["ORD-00001"])]
    known_users := ["u1"] }

/-- What `confirmedOrder` becomes once cancelled at time `T1`. -/
def cancelledOrder : Order :=
  cancelUpdate confirmedOrder "T1"

/-- Witness for C7: cancel the confirmed order, observe the refund, the
single appended history entry, and that a second cancel is a rejected
no-op. -/
theorem cancel_order_guards_witness :
    (dictGet "ORD-00001" storeWithOrder.orders = some confirmedOrder ∧
     confirmedOrder.status ≠ "cancelled" ∧
     confirmedOrder.status ≠ "shipped") ∧
    ((cancel_order storeWithOrder "ORD-00001" false "T1").1 =
       .success "ORD-00001" confirmedOrder.total_amount ∧
     dictGet "ORD-00001"
         (cancel_order storeWithOrder "ORD-00001" false "T1").2.1.orders =
       some (cancelUpdate confirmedOrder "T1") ∧
     (∀ (rf' : Bool) (ts' : String),
       cancel_order (cancel_order storeWithOrder "ORD-00001" false "T1").2.1
           "ORD-00001" rf' ts' =
         (.already_cancelled,
          (cancel_order storeWithOrder "ORD-00001" false "T1").2.1, []))) :=
  ⟨⟨rfl, by decide, by decide⟩,
   ((cancel_order_guards storeWithOrder "ORD-00001" "T1" false).2 confirmedOrder
      rfl).2.2.2 (by decide) (by decide) rfl⟩

end OtelApp
